import Mathlib

/- Verification of the Fdeals backend authentication core: token-fingerprint
hashing, refresh-session rotation, the CSRF double-submit guard, the OTP
login engine and the admin login throttle, shallowly embedded from the
backend JavaScript source (utils/jwt.js, UserAuthController.js,
AdminAuthController.js). -/

namespace Fdeals

/-- JavaScript 32-bit truncation `x | 0`: reduce an exact integer to the
signed 32-bit range.  In the hash loops below every intermediate value stays
below 2^53, so JavaScript double arithmetic is exact and this model is
faithful. -/
def toInt32 (x : Int) : Int := (x + 2147483648) % 4294967296 - 2147483648

namespace Jwt

/-- One step of the rolling hash in hashToken (utils/jwt.js line 198):
`h = (h * 31 + t.charCodeAt(i)) | 0`. -/
def hashStep (h : Int) (c : Char) : Int := toInt32 (h * 31 + c.toNat)

/-- Numeric value accumulated by hashToken before `String(h)` wraps it. -/
def hashRun (s : String) : Int := s.data.foldl hashStep 0

/-- hashToken (utils/jwt.js lines 195-201): rolling 32-bit hash of the signed
refresh token, returned as a string for storage in the tokenHash column. -/
def hashToken (s : String) : String := toString (hashRun s)

end Jwt

namespace AdminAuth

/-- One step of quickHash (AdminAuthController.js line 72):
`h = (Math.imul(h, 31) + str.charCodeAt(i)) | 0`. -/
def quickHashStep (h : Int) (c : Char) : Int := toInt32 (toInt32 (h * 31) + c.toNat)

/-- quickHash (AdminAuthController.js lines 69-74): rolling hash using
Math.imul, returned as a string, used by the admin logout lookup. -/
def quickHash (s : String) : String := toString (s.data.foldl quickHashStep 0)

end AdminAuth

namespace UserAuth

/-- hash (UserAuthController.js lines 260-264): the same rolling hash as
hashToken but returning the raw number; its only call site wraps it as
`String(hash(rt))`. -/
def hash (s : String) : Int := s.data.foldl Jwt.hashStep 0

end UserAuth

/-- Pointwise update of one of the in-memory string-keyed maps, as
`map.set(key, value)` on a JavaScript Map. -/
def mapSet {α : Type} (m : String → Option α) (k : String) (v : α) : String → Option α :=
  fun x => if x = k then some v else m x

/-- Pointwise removal from one of the in-memory string-keyed maps, as
`map.delete(key)` on a JavaScript Map. -/
def mapDel {α : Type} (m : String → Option α) (k : String) : String → Option α :=
  fun x => if x = k then none else m x

/-- Presence test matching JavaScript truthiness of a cookie or header value:
undefined and the empty string are both falsy. -/
def falsy : Option String → Bool
  | none => true
  | some s => s.isEmpty

/-- Shared CSRF double-submit check, the condition
`!cookie || !header || cookie !== header` of guardCsrf
(AdminAuthController.js lines 33-41) and of the inline checks in refresh,
logout and deleteAccount (UserAuthController.js). -/
def csrfFails (cookie header : Option String) : Bool :=
  falsy cookie || falsy header || cookie != header

namespace UserAuth

/-- normalizeEmail (UserAuthController.js lines 73-75):
`String(email || "").trim().toLowerCase()`. -/
def normalizeEmail (email : String) : String := email.trim.toLower

/-- The OTP-code format test `/^\d{6}$/.test(code)` of otpVerify. -/
def isSixDigits (code : String) : Bool :=
  code.length == 6 && code.data.all fun c => c.isDigit

/-- One entry of the global __otpStore map:
`{ code, exp, attempts }` keyed by normalized email. -/
structure OtpRec where
  code : String
  exp : Nat
  attempts : Nat
deriving DecidableEq, Repr

/-- One entry of the global __otpIpCount map: `{ hourStart, count }`. -/
structure IpRec where
  hourStart : Nat
  count : Nat
deriving DecidableEq, Repr

/-- The three in-memory stores of UserAuthController.js lines 33-35:
__otpStore, __otpCooldown and __otpIpCount. -/
structure OtpSys where
  store : String → Option OtpRec
  cooldown : String → Option Nat
  ipCount : String → Option IpRec

/-- Externally observable outcome of an OTP-request or logout call: the
uniform `{ ok: true }` body, or an error with its HTTP status and message. -/
inductive ReqOut
  | ok
  | err (status : Nat) (message : String)
deriving DecidableEq, Repr

/-- Externally observable outcome of otpVerify: the login-success body
(access token and sid issue elided), or an error with status and message. -/
inductive VerifyOut
  | success
  | err (status : Nat) (message : String)
deriving DecidableEq, Repr

/-- Rolling-window bookkeeping of otpRequest lines 113-114: read the per-IP
record (defaulting to a fresh one) and reset it once an hour has elapsed. -/
def ipWindow (now : Nat) (m : String → Option IpRec) (ip : String) : IpRec :=
  let st0 := (m ip).getD { hourStart := now, count := 0 }
  if now - st0.hourStart ≥ 3600000 then { hourStart := now, count := 0 } else st0

/-- otpRequest (UserAuthController.js lines 93-149).  External collaborators
are abstracted as arguments: `isEmail` is validator.isEmail,
`smtpConfigured` is whether the SmtpConfig lookup found a row, `code` is the
six-digit string drawn by randomOtp, and `sendOk` is whether
transporter.sendMail resolved (false also covers the 8s connection
timeout).  Returns the response and the updated stores. -/
def otpRequest (isEmail : String → Bool) (smtpConfigured : Bool) (now : Nat)
    (ip : String) (code : String) (sendOk : Bool) (sys : OtpSys) (emailRaw : String) :
    ReqOut × OtpSys :=
  let email := normalizeEmail emailRaw
  if !isEmail email then (.ok, sys)
  else if !smtpConfigured then (.err 422 "SMTP not configured", sys)
  else if (sys.cooldown email).getD 0 > now then (.ok, sys)
  else
    let st1 := ipWindow now sys.ipCount ip
    if st1.count ≥ 10 then (.ok, sys)
    else
      let st2 : IpRec := { st1 with count := st1.count + 1 }
      let sys1 : OtpSys :=
        { sys with
          ipCount := mapSet sys.ipCount ip st2,
          store := mapSet sys.store email { code := code, exp := now + 180000, attempts := 0 } }
      if !sendOk then
        (.err 503 "SMTP temporarily unavailable", { sys1 with store := mapDel sys1.store email })
      else
        (.ok, { sys1 with cooldown := mapSet sys1.cooldown email (now + 60000) })

/-- otpVerify (UserAuthController.js lines 152-196) restricted to its effect
on the OTP store; the success path's user lookup/creation and session issue
are elided behind the `success` tag.  `isEmail` abstracts validator.isEmail. -/
def otpVerify (isEmail : String → Bool) (now : Nat) (st : String → Option OtpRec)
    (emailRaw otp : String) : VerifyOut × (String → Option OtpRec) :=
  let email := normalizeEmail emailRaw
  if !isEmail email || !isSixDigits otp then (.err 400 "Invalid input", st)
  else
    match st email with
    | none => (.err 410 "OTP expired/used", st)
    | some r =>
      if now > r.exp then (.err 410 "OTP expired/used", mapDel st email)
      else if r.attempts ≥ 5 then (.err 410 "OTP expired/used", mapDel st email)
      else
        let r2 : OtpRec := { r with attempts := r.attempts + 1 }
        if otp != r.code then (.err 400 "Invalid OTP", mapSet st email r2)
        else (.success, mapDel st email)

end UserAuth

namespace Jwt

/-- One row of the RefreshToken collection as written by createSession
(utils/jwt.js lines 81-91).  The uuidv4 sid is modeled as a Nat drawn from a
freshness counter. -/
structure SessionRec where
  sid : Nat
  subjectId : String
  role : String
  tokenHash : String
  ua : String
  ip : String
  createdAt : Nat
  rotatedAt : Option Nat
  revokedAt : Option Nat
deriving DecidableEq, Repr

/-- Refresh-token payload `{ sub, role, sid }` signed by signRefreshToken
(utils/jwt.js lines 56-59). -/
structure RPayload where
  sub : String
  role : String
  sid : Nat
deriving DecidableEq, Repr

/-- Serialized form of a signed refresh token.  The external jsonwebtoken
sign is modeled as an injective serialization of the payload; the token's
only uses here are fingerprint hashing and payload recovery. -/
def encodeToken (p : RPayload) : String :=
  p.sub ++ "|" ++ p.role ++ "|" ++ toString p.sid

/-- A signed refresh token: its payload together with its serialized text,
which is what hashToken fingerprints. -/
structure RToken where
  payload : RPayload
  raw : String
deriving DecidableEq, Repr

/-- signRefreshToken (utils/jwt.js lines 56-59). -/
def signRefreshToken (sub role : String) (sid : Nat) : RToken :=
  { payload := { sub := sub, role := role, sid := sid },
    raw := encodeToken { sub := sub, role := role, sid := sid } }

/-- verifyRefreshToken (utils/jwt.js lines 62-64): jwt.verify recovers the
payload of a well-formed token.  Signature or expiry failure of the external
library is outside the model; the claims below concern tokens this system
issued, which verify. -/
def verifyRefreshToken (t : RToken) : RPayload := t.payload

/-- The durable session store plus a freshness counter modeling uuidv4 sid
generation: every sid ever handed out is below nextSid. -/
structure SessStore where
  sessions : List SessionRec
  nextSid : Nat
deriving DecidableEq, Repr

/-- createSession (utils/jwt.js lines 77-94): fresh sid, sign a refresh
token bound to it, persist an active record carrying the token's
fingerprint and the truncated user agent. -/
def createSession (st : SessStore) (subjectId role userAgent ip : String) (now : Nat) :
    SessStore × Nat × RToken :=
  let sid := st.nextSid
  let token := signRefreshToken subjectId role sid
  let row : SessionRec :=
    { sid := sid, subjectId := subjectId, role := role,
      tokenHash := hashToken token.raw,
      ua := userAgent.take 200, ip := ip, createdAt := now,
      rotatedAt := none, revokedAt := none }
  ({ sessions := row :: st.sessions, nextSid := st.nextSid + 1 }, sid, token)

/-- The lookup `RefreshToken.findOne({ sid, revokedAt: null })` of
rotateSession: first active record with this sid. -/
def findActive (sessions : List SessionRec) (sid : Nat) : Option SessionRec :=
  sessions.find? fun s => s.sid == sid && s.revokedAt == none

/-- Mark the record that findOne returned — the first active one with this
sid — revoked, as `session.revokedAt = new Date(); await session.save()`
does (utils/jwt.js lines 122-123). -/
def revokeFound (now : Nat) (sid : Nat) : List SessionRec → List SessionRec
  | [] => []
  | s :: rest =>
    if s.sid == sid && s.revokedAt == none then { s with revokedAt := some now } :: rest
    else s :: revokeFound now sid rest

/-- An error thrown by the auth helpers, carrying the ad hoc status and
message fields the JavaScript code attaches to Error objects. -/
structure JsErr where
  status : Nat
  message : String
deriving DecidableEq, Repr

/-- rotateSession (utils/jwt.js lines 104-134): verify the old token, find
the active session by its sid, require the stored fingerprint to match the
presented token, revoke the old record, then create the successor session. -/
def rotateSession (st : SessStore) (oldToken : RToken) (userAgent ip : String) (now : Nat) :
    Except JsErr (SessStore × RPayload × Nat × RToken) :=
  let payload := verifyRefreshToken oldToken
  match findActive st.sessions payload.sid with
  | none => .error { status := 401, message := "Invalid session" }
  | some session =>
    if session.tokenHash != hashToken oldToken.raw then
      .error { status := 401, message := "Refresh token mismatch" }
    else
      let st1 : SessStore := { st with sessions := revokeFound now payload.sid st.sessions }
      let c := createSession st1 payload.sub payload.role userAgent ip now
      .ok (c.1, payload, c.2.1, c.2.2)

/-- revokeAllSessionsForSubject (utils/jwt.js lines 142-147): updateMany on
all active sessions of the subject and role. -/
def revokeAllSessionsForSubject (st : SessStore) (subjectId role : String) (now : Nat) :
    SessStore :=
  { st with sessions := st.sessions.map fun s =>
      if s.subjectId == subjectId && s.role == role && s.revokedAt == none
      then { s with revokedAt := some now } else s }

/-- Store well-formedness: every stored sid was drawn below the freshness
counter, and stored sids are pairwise distinct (uuid uniqueness).  Both hold
of every store reachable by createSession from an empty store. -/
def wf (st : SessStore) : Prop :=
  (∀ s ∈ st.sessions, s.sid < st.nextSid) ∧
  st.sessions.Pairwise fun a b => a.sid ≠ b.sid

end Jwt

namespace UserAuth

/-- Externally observable outcome of the user refresh endpoint. -/
inductive RefreshOut
  | ok (sid : Nat)
  | err (status : Nat) (message : String)
deriving DecidableEq, Repr

/-- refresh (UserAuthController.js lines 199-217): inline CSRF check,
require the rt cookie, rotate the session; a thrown rotation error surfaces
with its status and message. -/
def refresh (csrfCookie csrfHeader : Option String) (rt : Option Jwt.RToken)
    (st : Jwt.SessStore) (ua ip : String) (now : Nat) : RefreshOut × Jwt.SessStore :=
  if csrfFails csrfCookie csrfHeader then (.err 401 "CSRF failed", st)
  else
    match rt with
    | none => (.err 401 "Unauthorized", st)
    | some t =>
      match Jwt.rotateSession st t ua ip now with
      | .error e => (.err e.status e.message, st)
      | .ok (st1, _p, sid, _t) => (.ok sid, st1)

/-- logout (UserAuthController.js lines 220-235): inline CSRF check, then a
best-effort `updateMany({ tokenHash: String(hash(rt)), revokedAt: null })`
revocation keyed by the cookie's fingerprint. -/
def logout (csrfCookie csrfHeader : Option String) (rt : Option Jwt.RToken)
    (st : Jwt.SessStore) (now : Nat) : ReqOut × Jwt.SessStore :=
  if csrfFails csrfCookie csrfHeader then (.err 401 "CSRF failed", st)
  else
    let st1 :=
      match rt with
      | none => st
      | some t =>
        { st with sessions := st.sessions.map fun s =>
            if s.tokenHash == toString (hash t.raw) && s.revokedAt == none
            then { s with revokedAt := some now } else s }
    (.ok, st1)

/-- One row of the User collection, reduced to the identifiers this core
exposes. -/
structure UserRec where
  uid : String
  email : String
deriving DecidableEq, Repr

/-- Externally observable outcome of the account-deletion endpoint. -/
inductive DelOut
  | ok (uid : String)
  | err (status : Nat) (message : String)
deriving DecidableEq, Repr

/-- deleteAccount (UserAuthController.js lines 238-257): inline CSRF check,
resolve the user by the body email when that is nonempty, else by the
access-token subject, 404 when neither resolves; otherwise revoke all the
user's sessions and hard-delete the user row.  `auth` is `req.auth?.sub`
from the authUser middleware. -/
def deleteAccount (csrfCookie csrfHeader : Option String) (auth : Option String)
    (bodyEmail : Option String) (users : List UserRec) (st : Jwt.SessStore) (now : Nat) :
    DelOut × List UserRec × Jwt.SessStore :=
  if csrfFails csrfCookie csrfHeader then (.err 401 "CSRF failed", users, st)
  else
    let email := normalizeEmail (bodyEmail.getD "")
    let byEmail := if email.isEmpty then none else users.find? fun u => u.email == email
    let user :=
      match byEmail with
      | some u => some u
      | none =>
        match auth with
        | some sub => users.find? fun u => u.uid == sub
        | none => none
    match user with
    | none => (.err 404 "User not found", users, st)
    | some u =>
      let st1 := Jwt.revokeAllSessionsForSubject st u.uid "user" now
      (.ok u.uid, users.filter fun v => v.uid ≠ u.uid, st1)

end UserAuth

namespace AdminAuth

/-- One entry of the loginAttempts map (AdminAuthController.js line 44):
`ip → { fails, lockedUntil }`. -/
structure AttemptRec where
  fails : Nat
  lockedUntil : Nat
deriving DecidableEq, Repr

/-- isIpLocked (AdminAuthController.js lines 46-52): locked while the expiry
is in the future; an expired lock is cleared lazily.  Returns the verdict
and the map after the lazy cleanup. -/
def isIpLocked (now : Nat) (m : String → Option AttemptRec) (ip : String) :
    Bool × (String → Option AttemptRec) :=
  match m ip with
  | none => (false, m)
  | some r => if now < r.lockedUntil then (true, m) else (false, mapDel m ip)

/-- registerFail (AdminAuthController.js lines 54-62): increment the
per-address failure count; on reaching 5, reset it to zero and set a
15-minute lockout expiry. -/
def registerFail (now : Nat) (m : String → Option AttemptRec) (ip : String) :
    String → Option AttemptRec :=
  let r0 := (m ip).getD { fails := 0, lockedUntil := 0 }
  let r1 : AttemptRec := { r0 with fails := r0.fails + 1 }
  let r2 := if r1.fails ≥ 5 then { fails := 0, lockedUntil := now + 900000 : AttemptRec } else r1
  mapSet m ip r2

/-- registerSuccess (AdminAuthController.js lines 64-66): clear the
address's record entirely. -/
def registerSuccess (m : String → Option AttemptRec) (ip : String) :
    String → Option AttemptRec :=
  mapDel m ip

/-- Externally observable outcome of the admin login endpoint. -/
inductive LoginOut
  | badInput
  | locked
  | badCreds
  | success
deriving DecidableEq, Repr

/-- login (AdminAuthController.js lines 81-152): input check, throttle
check, email comparison, then password comparison (bcrypt or plaintext,
abstracted as the boolean `passwordMatches`); session and token issue on
success are elided behind the `success` tag.  Returns the outcome and the
updated loginAttempts map. -/
def login (now : Nat) (m : String → Option AttemptRec) (ip : String)
    (hasEmail hasPassword emailMatches passwordMatches : Bool) :
    LoginOut × (String → Option AttemptRec) :=
  if !hasEmail || !hasPassword then (.badInput, m)
  else
    let lk := isIpLocked now m ip
    if lk.1 then (.locked, lk.2)
    else if !emailMatches then (.badCreds, registerFail now lk.2 ip)
    else if !passwordMatches then (.badCreds, registerFail now lk.2 ip)
    else (.success, registerSuccess lk.2 ip)

end AdminAuth

/-- Constant-true stand-in for the external validator.isEmail collaborator,
used to instantiate the theorems on concrete runs. -/
def isEmA : String → Bool := fun _ => true

/-- An OtpSys whose three maps are all empty. -/
def emptyOtpSys : UserAuth.OtpSys :=
  { store := fun _ => none, cooldown := fun _ => none, ipCount := fun _ => none }

/-- An OtpSys whose cooldown map answers a future timestamp for every key. -/
def cooldownSys : UserAuth.OtpSys :=
  { emptyOtpSys with cooldown := fun _ => some 5000 }

/-- A live OTP record used on concrete runs. -/
def recLive : UserAuth.OtpRec := { code := "123456", exp := 9000, attempts := 0 }

/-- An OTP record whose attempt budget is exhausted. -/
def recSpent : UserAuth.OtpRec := { code := "123456", exp := 9000, attempts := 5 }

/-- An OTP store holding recLive under every key. -/
def stLive : String → Option UserAuth.OtpRec := fun _ => some recLive

/-- An OTP store holding recSpent under every key. -/
def stSpent : String → Option UserAuth.OtpRec := fun _ => some recSpent

/-- A loginAttempts map with four accumulated failures for one address. -/
def mFourFails : String → Option AdminAuth.AttemptRec :=
  fun ipx => if ipx = "9.9.9.9" then some { fails := 4, lockedUntil := 0 } else none

/-- The session store after one concrete createSession on an empty store. -/
def stA : Jwt.SessStore :=
  (Jwt.createSession { sessions := [], nextSid := 0 } "u1" "user" "" "" 0).1

/-- The refresh token issued by that concrete createSession. -/
def tA : Jwt.RToken :=
  (Jwt.createSession { sessions := [], nextSid := 0 } "u1" "user" "" "" 0).2.2

/-- The tuple produced by one successful concrete rotation of tA. -/
def rotAok : Jwt.SessStore × Jwt.RPayload × Nat × Jwt.RToken :=
  (Jwt.rotateSession stA tA "" "" 1).toOption.getD
    ({ sessions := [], nextSid := 0 }, { sub := "", role := "", sid := 0 }, 0,
     { payload := { sub := "", role := "", sid := 0 }, raw := "" })

/-- Truncating to 32 bits before adding and truncating again gives the same
result as adding exactly and truncating once: toInt32 respects congruence
modulo 2^32 in its left addend. -/
theorem toInt32_add_congr (a c : Int) : toInt32 (toInt32 a + c) = toInt32 (a + c) := by
  unfold toInt32
  omega

/-- The quickHash step and the hashToken step agree on every accumulator and
character. -/
theorem quickHashStep_eq_hashStep (h : Int) (c : Char) :
    AdminAuth.quickHashStep h c = Jwt.hashStep h c := by
  unfold AdminAuth.quickHashStep Jwt.hashStep
  exact toInt32_add_congr (h * 31) c.toNat

/-- A failing double-submit pair makes csrfFails answer true. -/
theorem csrfFails_of_bad (cookie header : Option String)
    (h : cookie = none ∨ header = none ∨ cookie ≠ header) :
    csrfFails cookie header = true := by
  unfold csrfFails falsy
  rcases h with h | h | h
  · subst h; rfl
  · subst h; cases cookie <;> simp
  · simp [bne_iff_ne, h]

/-- C9: the three token-fingerprint implementations — hashToken in jwt.js,
quickHash in AdminAuthController and hash in UserAuthController (whose one
call site wraps it as String(hash(rt))) — produce the same string on every
input, so a record stored under one fingerprint is matched by lookups that
recompute it with another. -/
theorem hash_implementations_agree (s : String) :
    AdminAuth.quickHash s = Jwt.hashToken s ∧
    toString (UserAuth.hash s) = Jwt.hashToken s := by
  refine ⟨?_, rfl⟩
  unfold AdminAuth.quickHash Jwt.hashToken Jwt.hashRun
  have h : AdminAuth.quickHashStep = Jwt.hashStep := by
    funext h c
    exact quickHashStep_eq_hashStep h c
  rw [h]

/-- C5: the CSRF check shared by refresh, logout and account deletion fails
each of those operations with status 401 whenever the cookie is absent, the
header is absent, or the two differ; and it passes only when both are
present (nonempty) and exactly equal. -/
theorem csrf_check_exact_match (cookie header : Option String) (rt : Option Jwt.RToken)
    (auth bodyEmail : Option String) (users : List UserAuth.UserRec) (st : Jwt.SessStore)
    (ua ip : String) (now : Nat) :
    ((cookie = none ∨ header = none ∨ cookie ≠ header) →
      (UserAuth.refresh cookie header rt st ua ip now).1 = .err 401 "CSRF failed" ∧
      (UserAuth.logout cookie header rt st now).1 = .err 401 "CSRF failed" ∧
      (UserAuth.deleteAccount cookie header auth bodyEmail users st now).1 =
        .err 401 "CSRF failed") ∧
    (csrfFails cookie header = false →
      ∃ c, cookie = some c ∧ header = some c ∧ c ≠ "") := by
  constructor
  · intro h
    have hf := csrfFails_of_bad cookie header h
    refine ⟨?_, ?_, ?_⟩
    · unfold UserAuth.refresh
      rw [if_pos hf]
    · unfold UserAuth.logout
      rw [if_pos hf]
    · unfold UserAuth.deleteAccount
      rw [if_pos hf]
  · intro h
    cases cookie with
    | none => exact absurd h (by simp [csrfFails, falsy])
    | some c =>
      cases header with
      | none => exact absurd h (by simp [csrfFails, falsy])
      | some d =>
        simp only [csrfFails, falsy, Bool.or_eq_false_iff, bne_eq_false_iff_eq,
          Option.some.injEq] at h
        obtain ⟨⟨hc, hd⟩, he⟩ := h
        subst he
        exact ⟨c, rfl, rfl, fun hc0 => by subst hc0; exact absurd hc (by decide)⟩

/-- C6: the admin login throttle walks the per-address machine
Clean - Accumulating(n) - Locked(until) - Clean: the fifth recorded failure
resets the count and sets a 15-minute lockout; while the lockout expiry is
in the future, login answers locked without consulting the credential
booleans and leaves the map unchanged; an expired lockout reads as unlocked
and clears the record; a successful login removes the record entirely. -/
theorem admin_login_throttle_machine (now : Nat) (m : String → Option AdminAuth.AttemptRec)
    (ip : String) :
    (∀ l, m ip = some { fails := 4, lockedUntil := l } →
      AdminAuth.registerFail now m ip ip =
        some { fails := 0, lockedUntil := now + 900000 }) ∧
    (∀ r, m ip = some r → now < r.lockedUntil →
      ∀ e p, AdminAuth.login now m ip true true e p = (.locked, m)) ∧
    (∀ r, m ip = some r → ¬ now < r.lockedUntil →
      AdminAuth.isIpLocked now m ip = (false, mapDel m ip)) ∧
    ((AdminAuth.isIpLocked now m ip).1 = false →
      (AdminAuth.login now m ip true true true true).2 ip = none) := by
  refine ⟨?_, ?_, ?_, ?_⟩
  · intro l hm
    unfold AdminAuth.registerFail mapSet
    rw [hm]
    simp
  · intro r hm hlock e p
    unfold AdminAuth.login AdminAuth.isIpLocked
    rw [hm]
    simp [hlock]
  · intro r hm hlock
    unfold AdminAuth.isIpLocked
    rw [hm]
    simp [hlock]
  · intro h
    unfold AdminAuth.login
    simp only [Bool.not_true, Bool.or_self, Bool.false_eq_true, if_false]
    rw [if_neg (by simp [h])]
    simp [AdminAuth.registerSuccess, mapDel]

/-- C2: on a live OTP record otpVerify increments the attempt counter before
comparing codes: a mismatch answers InvalidOtp (status 400) and leaves the
record, with its counter bumped, in the store; and once the counter has
reached the maximum of 5 the next verification answers Expired (status 410)
whatever code is submitted, even the stored one. -/
theorem otpVerify_attempts_and_exhaustion (isEmail : String → Bool) (now : Nat)
    (st : String → Option UserAuth.OtpRec) (emailRaw otp : String) (r : UserAuth.OtpRec)
    (hem : isEmail (UserAuth.normalizeEmail emailRaw) = true)
    (hcode : UserAuth.isSixDigits otp = true)
    (hrec : st (UserAuth.normalizeEmail emailRaw) = some r)
    (hexp : ¬ now > r.exp) :
    (r.attempts < 5 → otp ≠ r.code →
      UserAuth.otpVerify isEmail now st emailRaw otp =
        (.err 400 "Invalid OTP",
         mapSet st (UserAuth.normalizeEmail emailRaw)
           { r with attempts := r.attempts + 1 })) ∧
    (r.attempts ≥ 5 →
      UserAuth.otpVerify isEmail now st emailRaw otp =
        (.err 410 "OTP expired/used", mapDel st (UserAuth.normalizeEmail emailRaw))) := by
  constructor
  · intro hlt hne
    unfold UserAuth.otpVerify
    simp only [hem, hcode, hrec, Bool.not_true, Bool.or_self, Bool.false_eq_true, if_false]
    rw [if_neg hexp, if_neg (by omega)]
    simp only [bne_iff_ne, ne_eq, hne, not_false_eq_true, if_pos]
  · intro hge
    unfold UserAuth.otpVerify
    simp only [hem, hcode, hrec, Bool.not_true, Bool.or_self, Bool.false_eq_true, if_false]
    rw [if_neg hexp, if_pos hge]

/-- C3: otpVerify answers the same Expired outcome — status 410, message
"OTP expired/used" — when no record exists, when the record has expired, and
when its attempt count is at least 5; in the expired and exhausted cases the
record is deleted from the store as a side effect. -/
theorem otpVerify_expired_uniform (isEmail : String → Bool) (now : Nat)
    (st : String → Option UserAuth.OtpRec) (emailRaw otp : String)
    (hem : isEmail (UserAuth.normalizeEmail emailRaw) = true)
    (hcode : UserAuth.isSixDigits otp = true) :
    (st (UserAuth.normalizeEmail emailRaw) = none →
      UserAuth.otpVerify isEmail now st emailRaw otp =
        (.err 410 "OTP expired/used", st)) ∧
    (∀ r, st (UserAuth.normalizeEmail emailRaw) = some r → now > r.exp →
      UserAuth.otpVerify isEmail now st emailRaw otp =
        (.err 410 "OTP expired/used", mapDel st (UserAuth.normalizeEmail emailRaw))) ∧
    (∀ r, st (UserAuth.normalizeEmail emailRaw) = some r → ¬ now > r.exp →
      r.attempts ≥ 5 →
      UserAuth.otpVerify isEmail now st emailRaw otp =
        (.err 410 "OTP expired/used", mapDel st (UserAuth.normalizeEmail emailRaw))) := by
  refine ⟨?_, ?_, ?_⟩
  · intro hnone
    unfold UserAuth.otpVerify
    simp only [hem, hcode, hnone, Bool.not_true, Bool.or_self, Bool.false_eq_true, if_false]
  · intro r hrec hgt
    unfold UserAuth.otpVerify
    simp only [hem, hcode, hrec, Bool.not_true, Bool.or_self, Bool.false_eq_true, if_false]
    rw [if_pos hgt]
  · intro r hrec hexp hge
    unfold UserAuth.otpVerify
    simp only [hem, hcode, hrec, Bool.not_true, Bool.or_self, Bool.false_eq_true, if_false]
    rw [if_neg hexp, if_pos hge]

/-- C4: the OTP store keeps at most one live code per normalized email: a
full otpRequest overwrites whatever record the email had with the fresh
code, and otpVerify removes the record on successful match (single use), on
expiry, and on attempt exhaustion. -/
theorem otp_single_live_code (isEmail : String → Bool) (now nr : Nat) (ip code : String)
    (sys : UserAuth.OtpSys) (st : String → Option UserAuth.OtpRec) (emailRaw otp : String)
    (hem : isEmail (UserAuth.normalizeEmail emailRaw) = true) :
    (¬ (sys.cooldown (UserAuth.normalizeEmail emailRaw)).getD 0 > now →
      (UserAuth.ipWindow now sys.ipCount ip).count < 10 →
      (UserAuth.otpRequest isEmail true now ip code true sys emailRaw).2.store
        (UserAuth.normalizeEmail emailRaw) =
          some { code := code, exp := now + 180000, attempts := 0 }) ∧
    (UserAuth.isSixDigits otp = true →
      ∀ r, st (UserAuth.normalizeEmail emailRaw) = some r →
      (¬ nr > r.exp → r.attempts < 5 → otp = r.code →
        (UserAuth.otpVerify isEmail nr st emailRaw otp).2
          (UserAuth.normalizeEmail emailRaw) = none) ∧
      (nr > r.exp →
        (UserAuth.otpVerify isEmail nr st emailRaw otp).2
          (UserAuth.normalizeEmail emailRaw) = none) ∧
      (¬ nr > r.exp → r.attempts ≥ 5 →
        (UserAuth.otpVerify isEmail nr st emailRaw otp).2
          (UserAuth.normalizeEmail emailRaw) = none)) := by
  constructor
  · intro hcool hquota
    unfold UserAuth.otpRequest
    simp only [hem, Bool.not_true, Bool.not_false, Bool.false_eq_true, if_false,
      Bool.true_eq_false]
    rw [if_neg hcool, if_neg (by omega)]
    simp [mapSet]
  · intro hcode r hrec
    refine ⟨?_, ?_, ?_⟩
    · intro hexp hlt heq
      unfold UserAuth.otpVerify
      simp only [hem, hcode, hrec, Bool.not_true, Bool.or_self, Bool.false_eq_true, if_false]
      rw [if_neg hexp, if_neg (by omega)]
      simp [heq, mapDel]
    · intro hgt
      unfold UserAuth.otpVerify
      simp only [hem, hcode, hrec, Bool.not_true, Bool.or_self, Bool.false_eq_true, if_false]
      rw [if_pos hgt]
      simp [mapDel]
    · intro hexp hge
      unfold UserAuth.otpVerify
      simp only [hem, hcode, hrec, Bool.not_true, Bool.or_self, Bool.false_eq_true, if_false]
      rw [if_neg hexp, if_pos hge]
      simp [mapDel]

/-- C8: while the per-email cooldown timestamp lies in the future, a new
otpRequest for that email returns the uniform success response and performs
no state change at all: the OTP store, the cooldown map and the per-address
counter are returned untouched. -/
theorem otpRequest_cooldown_noop (isEmail : String → Bool) (now : Nat) (ip code : String)
    (sendOk : Bool) (sys : UserAuth.OtpSys) (emailRaw : String)
    (hem : isEmail (UserAuth.normalizeEmail emailRaw) = true)
    (hcool : (sys.cooldown (UserAuth.normalizeEmail emailRaw)).getD 0 > now) :
    UserAuth.otpRequest isEmail true now ip code sendOk sys emailRaw = (.ok, sys) := by
  unfold UserAuth.otpRequest
  simp only [hem, Bool.not_true, Bool.not_false, Bool.false_eq_true, if_false,
    Bool.true_eq_false]
  rw [if_pos hcool]

/-- C7 counterexample: with the transport unconfigured, otpRequest answers
status 422 "SMTP not configured", which is not the 503 ServiceUnavailable
failure; only a failed send attempt produces the 503 outcome. -/
theorem otpRequest_unconfigured_not_503 :
    (UserAuth.otpRequest isEmA false 1000 "1.1.1.1" "123456" true emptyOtpSys "a@b.co").1 =
      .err 422 "SMTP not configured" ∧
    (UserAuth.otpRequest isEmA false 1000 "1.1.1.1" "123456" true emptyOtpSys "a@b.co").1 ≠
      .err 503 "SMTP temporarily unavailable" := by
  exact ⟨rfl, by decide⟩

/-- C7 amended: when the transport is unconfigured otpRequest fails with the
distinct status 422 "SMTP not configured" before storing anything; when the
send attempt fails or times out it fails with the distinct status 503 "SMTP
temporarily unavailable" and deletes the OTP record it stored for that email
before returning, so no ghost code remains. -/
theorem otpRequest_mail_failure_behavior (isEmail : String → Bool) (now : Nat)
    (ip code : String) (sendOk : Bool) (sys : UserAuth.OtpSys) (emailRaw : String)
    (hem : isEmail (UserAuth.normalizeEmail emailRaw) = true) :
    (UserAuth.otpRequest isEmail false now ip code sendOk sys emailRaw =
      (.err 422 "SMTP not configured", sys)) ∧
    (¬ (sys.cooldown (UserAuth.normalizeEmail emailRaw)).getD 0 > now →
      (UserAuth.ipWindow now sys.ipCount ip).count < 10 →
      (UserAuth.otpRequest isEmail true now ip code false sys emailRaw).1 =
        .err 503 "SMTP temporarily unavailable" ∧
      (UserAuth.otpRequest isEmail true now ip code false sys emailRaw).2.store
        (UserAuth.normalizeEmail emailRaw) = none) := by
  constructor
  · unfold UserAuth.otpRequest
    simp [hem]
  · intro hcool hquota
    unfold UserAuth.otpRequest
    simp only [hem, Bool.not_true, Bool.not_false, Bool.false_eq_true, if_false,
      Bool.true_eq_false]
    rw [if_neg hcool, if_neg (by omega)]
    simp [mapDel]

/-- C10: deleteAccount resolves the target account from the request-body
email in preference to the authenticated subject: a nonempty body email that
matches an existing user deletes that user and revokes all sessions of that
user whatever subject the access token names; the subject id is consulted
only when the email lookup yields no user; and when neither source resolves
a user the operation answers NotFound (status 404) with no state change. -/
theorem deleteAccount_email_precedence (cookie header auth bodyEmail : Option String)
    (users : List UserAuth.UserRec) (st : Jwt.SessStore) (now : Nat)
    (hcsrf : csrfFails cookie header = false) :
    (∀ u, (UserAuth.normalizeEmail (bodyEmail.getD "")).isEmpty = false →
      users.find? (fun v => v.email == UserAuth.normalizeEmail (bodyEmail.getD "")) = some u →
      UserAuth.deleteAccount cookie header auth bodyEmail users st now =
        (.ok u.uid, users.filter (fun v => v.uid ≠ u.uid),
         Jwt.revokeAllSessionsForSubject st u.uid "user" now)) ∧
    (∀ sub u,
      (if (UserAuth.normalizeEmail (bodyEmail.getD "")).isEmpty then none
       else users.find? fun v => v.email == UserAuth.normalizeEmail (bodyEmail.getD "")) =
        none →
      auth = some sub →
      users.find? (fun v => v.uid == sub) = some u →
      UserAuth.deleteAccount cookie header auth bodyEmail users st now =
        (.ok u.uid, users.filter (fun v => v.uid ≠ u.uid),
         Jwt.revokeAllSessionsForSubject st u.uid "user" now)) ∧
    ((if (UserAuth.normalizeEmail (bodyEmail.getD "")).isEmpty then none
      else users.find? fun v => v.email == UserAuth.normalizeEmail (bodyEmail.getD "")) =
        none →
      (match auth with
       | some sub => users.find? fun v => v.uid == sub
       | none => none) = none →
      UserAuth.deleteAccount cookie header auth bodyEmail users st now =
        (.err 404 "User not found", users, st)) := by
  refine ⟨?_, ?_, ?_⟩
  · intro u hne hfind
    unfold UserAuth.deleteAccount
    rw [if_neg (by simp [hcsrf])]
    simp only [hne, Bool.false_eq_true, if_false, hfind]
  · intro sub u hbe hauth hfind
    unfold UserAuth.deleteAccount
    rw [if_neg (by simp [hcsrf])]
    simp only [hbe, hauth, hfind]
  · intro hbe hauth
    unfold UserAuth.deleteAccount
    rw [if_neg (by simp [hcsrf])]
    simp only [hbe, hauth]

/-- Characterization of a successful findActive lookup: the returned record
is a member, carries the requested sid, and is unrevoked. -/
theorem findActive_some (l : List Jwt.SessionRec) (sid : Nat) (s : Jwt.SessionRec)
    (h : Jwt.findActive l sid = some s) :
    s ∈ l ∧ s.sid = sid ∧ s.revokedAt = none := by
  unfold Jwt.findActive at h
  have hm := List.mem_of_find?_eq_some h
  have hp := List.find?_some h
  simp only [Bool.and_eq_true, beq_iff_eq] at hp
  exact ⟨hm, hp.1, hp.2⟩

/-- A list in which no record carries the sid has no active record with it. -/
theorem findActive_eq_none (l : List Jwt.SessionRec) (sid : Nat)
    (h : ∀ s ∈ l, s.sid ≠ sid) : Jwt.findActive l sid = none := by
  unfold Jwt.findActive
  apply List.find?_eq_none.mpr
  intro s hs
  simp only [Bool.and_eq_true, beq_iff_eq, not_and]
  intro hsid
  exact absurd hsid (h s hs)

/-- Under pairwise-distinct sids, every record of revokeFound that carries
the rotated sid has been marked revoked at the rotation time, provided the
lookup that rotation performed succeeded. -/
theorem revokeFound_members (now sid : Nat) :
    ∀ l : List Jwt.SessionRec, l.Pairwise (fun a b => a.sid ≠ b.sid) →
    (∃ s0, Jwt.findActive l sid = some s0) →
    ∀ s ∈ Jwt.revokeFound now sid l, s.sid = sid → s.revokedAt = some now := by
  intro l
  induction l with
  | nil =>
    intro _ hex s hs
    simp [Jwt.revokeFound] at hs
  | cons a rest ih =>
    intro hpw hex s hs hsid
    obtain ⟨s0, hfind⟩ := hex
    rw [List.pairwise_cons] at hpw
    by_cases hc : (a.sid == sid && a.revokedAt == none) = true
    · unfold Jwt.revokeFound at hs
      rw [if_pos hc] at hs
      rcases List.mem_cons.mp hs with h1 | h1
      · rw [h1]
      · simp only [Bool.and_eq_true, beq_iff_eq] at hc
        exact absurd (hc.1.trans hsid.symm) (hpw.1 s h1)
    · unfold Jwt.revokeFound at hs
      rw [if_neg hc] at hs
      have hfr : Jwt.findActive rest sid = some s0 := by
        unfold Jwt.findActive at hfind ⊢
        rwa [List.find?_cons_of_neg _ (by simpa using hc)] at hfind
      rcases List.mem_cons.mp hs with h1 | h1
      · subst h1
        simp only [Bool.and_eq_true, beq_iff_eq, not_and] at hc
        have hrest : ∀ b ∈ rest, b.sid ≠ sid := by
          intro b hb hbs
          exact absurd (hsid.trans hbs.symm) (hpw.1 b hb)
        rw [findActive_eq_none rest sid hrest] at hfr
        cases hfr
      · exact ih hpw.2 ⟨s0, hfr⟩ s h1 hsid

/-- After revokeFound, no active record with the rotated sid remains. -/
theorem findActive_revokeFound (now sid : Nat) (l : List Jwt.SessionRec)
    (hpw : l.Pairwise (fun a b => a.sid ≠ b.sid))
    (hex : ∃ s0, Jwt.findActive l sid = some s0) :
    Jwt.findActive (Jwt.revokeFound now sid l) sid = none := by
  unfold Jwt.findActive
  apply List.find?_eq_none.mpr
  intro s hs
  simp only [Bool.and_eq_true, beq_iff_eq, not_and]
  intro hsid hrev
  have := revokeFound_members now sid l hpw hex s hs hsid
  rw [this] at hrev
  cases hrev

/-- C1: once rotateSession has succeeded on a refresh token, every later
rotateSession call presenting the same token answers Unauthorized (status
401), because the successful rotation revoked the old session record before
creating a successor under a fresh sid; and rotateSession likewise answers
status 401 when the active session record for the sid is missing or already
revoked, or when its stored tokenHash differs from the hash of the
presented token. -/
theorem rotateSession_replay_unauthorized (st : Jwt.SessStore) (t : Jwt.RToken)
    (ua ip ua2 ip2 : String) (now now2 : Nat) (hwf : Jwt.wf st) :
    (∀ st1 p sid1 t1, Jwt.rotateSession st t ua ip now = .ok (st1, p, sid1, t1) →
      Jwt.rotateSession st1 t ua2 ip2 now2 =
        .error { status := 401, message := "Invalid session" }) ∧
    (Jwt.findActive st.sessions (Jwt.verifyRefreshToken t).sid = none →
      Jwt.rotateSession st t ua ip now =
        .error { status := 401, message := "Invalid session" }) ∧
    (∀ s, Jwt.findActive st.sessions (Jwt.verifyRefreshToken t).sid = some s →
      s.tokenHash ≠ Jwt.hashToken t.raw →
      Jwt.rotateSession st t ua ip now =
        .error { status := 401, message := "Refresh token mismatch" }) := by
  refine ⟨?_, ?_, ?_⟩
  · intro st1 p sid1 t1 hok
    simp only [Jwt.rotateSession] at hok
    split at hok
    · cases hok
    · rename_i s0 hfind
      split at hok
      · cases hok
      · rename_i hh
        simp only [Jwt.createSession, Except.ok.injEq, Prod.mk.injEq] at hok
        obtain ⟨hst1, hp, hsid1, ht1⟩ := hok
        have hprops := findActive_some st.sessions (Jwt.verifyRefreshToken t).sid s0 hfind
        have hlt : (Jwt.verifyRefreshToken t).sid < st.nextSid :=
          hprops.2.1 ▸ hwf.1 s0 hprops.1
        simp only [Jwt.rotateSession]
        have hnone : Jwt.findActive st1.sessions (Jwt.verifyRefreshToken t).sid = none := by
          rw [← hst1]
          unfold Jwt.findActive
          rw [List.find?_cons_of_neg _ (by simp; omega)]
          exact findActive_revokeFound now (Jwt.verifyRefreshToken t).sid st.sessions
            hwf.2 ⟨s0, hfind⟩
        rw [hnone]
  · intro hfind
    simp only [Jwt.rotateSession]
    rw [hfind]
  · intro s hfind hne
    simp only [Jwt.rotateSession]
    rw [hfind]
    simp [bne_iff_ne, hne]

/-- Witness for C1: a concrete rotation of tA succeeds, and replaying tA
against the successor store fails with Invalid session. -/
theorem rotateSession_replay_unauthorized_witness :
    Jwt.rotateSession rotAok.1 tA "" "" 2 =
      .error { status := 401, message := "Invalid session" } :=
  (rotateSession_replay_unauthorized stA tA "" "" "" "" 1 2
      (by unfold Jwt.wf; decide)).1
    rotAok.1 rotAok.2.1 rotAok.2.2.1 rotAok.2.2.2 rfl

/-- Witness for C2: with a live record, a wrong code answers Invalid OTP and
stores the bumped attempt counter. -/
theorem otpVerify_attempts_and_exhaustion_witness :
    UserAuth.otpVerify isEmA 1000 stLive "a@b.co" "654321" =
      (.err 400 "Invalid OTP",
       mapSet stLive (UserAuth.normalizeEmail "a@b.co")
         { recLive with attempts := recLive.attempts + 1 }) :=
  (otpVerify_attempts_and_exhaustion isEmA 1000 stLive "a@b.co" "654321" recLive rfl
    (by decide) rfl (by decide)).1 (by decide) (by decide)

/-- Witness for C3: an exhausted record answers the uniform Expired outcome
and is deleted. -/
theorem otpVerify_expired_uniform_witness :
    UserAuth.otpVerify isEmA 1000 stSpent "a@b.co" "123456" =
      (.err 410 "OTP expired/used", mapDel stSpent (UserAuth.normalizeEmail "a@b.co")) :=
  (otpVerify_expired_uniform isEmA 1000 stSpent "a@b.co" "123456" rfl (by decide)).2.2
    recSpent rfl (by decide) (by decide)

/-- Witness for C4: a successful verification deletes the single live record
for the email. -/
theorem otp_single_live_code_witness :
    (UserAuth.otpVerify isEmA 1000 stLive "a@b.co" "123456").2
      (UserAuth.normalizeEmail "a@b.co") = none :=
  ((otp_single_live_code isEmA 1000 1000 "1.1.1.1" "999999" emptyOtpSys stLive "a@b.co"
      "123456" rfl).2 (by decide) recLive rfl).1 (by decide) (by decide) rfl

/-- Witness for C5: a missing CSRF cookie fails all three guarded endpoints
with status 401. -/
theorem csrf_check_exact_match_witness :
    (UserAuth.refresh none (some "x") none { sessions := [], nextSid := 0 } "" "" 0).1 =
      .err 401 "CSRF failed" ∧
    (UserAuth.logout none (some "x") none { sessions := [], nextSid := 0 } 0).1 =
      .err 401 "CSRF failed" ∧
    (UserAuth.deleteAccount none (some "x") none none [] { sessions := [], nextSid := 0 }
      0).1 = .err 401 "CSRF failed" :=
  (csrf_check_exact_match none (some "x") none none none []
    { sessions := [], nextSid := 0 } "" "" 0).1 (Or.inl rfl)

/-- Witness for C6: the fifth recorded failure resets the counter and locks
the address for fifteen minutes. -/
theorem admin_login_throttle_machine_witness :
    AdminAuth.registerFail 100 mFourFails "9.9.9.9" "9.9.9.9" =
      some { fails := 0, lockedUntil := 100 + 900000 } :=
  (admin_login_throttle_machine 100 mFourFails "9.9.9.9").1 0 (by decide)

/-- Witness for C7 (amended): a failed send attempt answers 503 and rolls
back the stored OTP record. -/
theorem otpRequest_mail_failure_behavior_witness :
    (UserAuth.otpRequest isEmA true 1000 "1.1.1.1" "123456" false emptyOtpSys "a@b.co").1 =
      .err 503 "SMTP temporarily unavailable" ∧
    (UserAuth.otpRequest isEmA true 1000 "1.1.1.1" "123456" false emptyOtpSys
      "a@b.co").2.store (UserAuth.normalizeEmail "a@b.co") = none :=
  (otpRequest_mail_failure_behavior isEmA 1000 "1.1.1.1" "123456" false emptyOtpSys
    "a@b.co" rfl).2 (by decide) (by decide)

/-- Witness for C8: an active cooldown makes otpRequest a uniform-success
no-op. -/
theorem otpRequest_cooldown_noop_witness :
    UserAuth.otpRequest isEmA true 1000 "1.1.1.1" "123456" true cooldownSys "a@b.co" =
      (.ok, cooldownSys) :=
  otpRequest_cooldown_noop isEmA 1000 "1.1.1.1" "123456" true cooldownSys "a@b.co" rfl
    (by decide)

/-- Witness for C10: with no body email and no authenticated subject,
deleteAccount answers 404 and changes nothing. -/
theorem deleteAccount_email_precedence_witness :
    UserAuth.deleteAccount (some "x") (some "x") none none []
      { sessions := [], nextSid := 0 } 0 =
      (.err 404 "User not found", [], { sessions := [], nextSid := 0 }) :=
  (deleteAccount_email_precedence (some "x") (some "x") none none []
      { sessions := [], nextSid := 0 } 0 (by decide)).2.2
    (by cases h : (UserAuth.normalizeEmail ((none : Option String).getD "")).isEmpty <;>
      simp [h])
    rfl

end Fdeals
